import Mathlib

/-!
Verification development for the Wi-Fi environment telemetry decoder of
`wifi_scan.py` (module `wifi_scan` of the aircapbuddy repository).

The Python module is shallowly embedded:
* `bytes` values become `List Nat` (each entry a byte value `0..255`);
  Python slicing `b[a:c]`, which never raises, becomes `pySlice`;
  direct indexing `b[i]`, which raises `IndexError` when out of range,
  becomes `l[i]?` with `none` propagated as the raised exception —
  a function that can raise therefore returns an `Option`.
* `int.from_bytes(..., byteorder='little')` becomes `int_from_bytes_le`.
* Python's float division `byte / 255` is modelled as exact rational
  division into `Rat` (the claims only concern the exact value `128/255`).
* Python dicts that are built by successive insertion of distinct keys
  (the `output["elements"]` dict and its nested sub-dicts) become
  association lists in insertion order.
* `re` pattern matching: each compiled pattern of the module is embedded
  as a dedicated matcher on `List Char` that reproduces the pattern's
  leftmost-match/backtracking semantics, and `findall` as a scan that
  tries every position and resumes after each match (all the module's
  patterns match at least one character, so the scan advances).
-/

namespace WifiScan

/-- A decoded value stored in the `elements` dict of an information
element: the Python code stores ints, one float ratio (`ch_utilization`),
and nested dicts whose values are all ints (`vht_info`, `6ghz_info`). -/
inductive Value where
  | vInt : Int → Value
  | vRat : Rat → Value
  | vObj : List (String × Int) → Value
deriving DecidableEq, Repr

/-- The dict returned by `read_beacon_ie`:
`{"id": ..., "raw": ..., "type": ..., "elements": {...}}`. -/
structure IEOut where
  id : Nat
  raw : String
  type : String
  elements : List (String × Value)
deriving DecidableEq, Repr

/-- The dict returned by `process_link`. -/
structure LinkSummary where
  bssid : String
  tx_bitrate : String
  rx_bitrate : String
deriving DecidableEq, Repr

/-- One sample dict appended by the loop of `process_link_results`. -/
structure LinkSample where
  timestamp : String
  rssi : String
  tx_bitrate : String
  rx_bitrate : String
deriving DecidableEq, Repr

/-- The per-cell dict built by `process_scan_results`. -/
structure Cell where
  bssid : String
  channel : String
  freq : String
  rssi : String
  ssid : String
  connected : Bool
  rates : List String
  tx_bitrate : String
  rx_bitrate : String
  extras : List IEOut
deriving DecidableEq, Repr

/-- Python slice `b[a:c]` on a byte string: total, clamps at both ends. -/
def pySlice (b : List Nat) (a c : Nat) : List Nat :=
  (b.drop a).take (c - a)

/-- `int.from_bytes(bs, byteorder='little')`. -/
def int_from_bytes_le (bs : List Nat) : Nat :=
  bs.foldr (fun b acc => b + 256 * acc) 0

/-- Source `byte_uint_to_int` (wifi_scan.py:23-30): checks the 16-bit
sign bit `0x8000`; if set, inverts against `0xffff`, adds one and
negates; otherwise returns the input unchanged. -/
def byte_uint_to_int (byte_uint : Nat) : Int :=
  if byte_uint &&& 0x8000 = 0x8000 then
    -(((byte_uint ^^^ 0xffff) + 1 : Nat) : Int)
  else
    (byte_uint : Int)

/-- Source `read_beacon_ie` (wifi_scan.py:33-168), after the
`bytes.fromhex` conversion: dispatch over `byte_data[0]`.  Any
out-of-range direct index raises in Python, so the embedding returns
`none` there; `pySlice` reads are total exactly as Python slices are. -/
def read_beacon_ie_core (raw : String) (byte_data : List Nat) : Option IEOut :=
  match byte_data[0]? with
  | none => none
  | some b0 =>
    match b0 with
    | 11 =>
      -- BSS Load: sta_count from byte_data[2:4], ch_utilization from
      -- byte_data[4] (direct index, may raise), cap from byte_data[5:7].
      match (byte_data[4]? : Option Nat) with
      | none => none
      | some cu =>
        some { id := 11, raw := raw, type := "BSS Load", elements := [
          ("sta_count", .vInt (Int.ofNat (int_from_bytes_le (pySlice byte_data 2 4)))),
          ("ch_utilization", .vRat ((cu : Rat) / 255)),
          ("available_admission_cap",
            .vInt (Int.ofNat (int_from_bytes_le (pySlice byte_data 5 7))))] }
    | 35 =>
      -- TPC Report: both fields go through byte_uint_to_int.
      match byte_data[2]?, byte_data[3]? with
      | some t, some l =>
        some { id := 35, raw := raw, type := "TPC Report", elements := [
          ("tx_power", .vInt (byte_uint_to_int t)),
          ("link_margin", .vInt (byte_uint_to_int l))] }
      | _, _ => none
    | 61 => do
      -- HT Operation: primary channel, a 5-byte info block byte_data[3:8]
      -- indexed directly (raises when truncated), 16-byte MCS set slice.
      let primary : Nat ← byte_data[2]?
      let hti := pySlice byte_data 3 8
      let h0 : Nat ← hti[0]?
      let h1 : Nat ← hti[1]?
      let h2 : Nat ← hti[2]?
      let h3 : Nat ← hti[3]?
      let h4 : Nat ← hti[4]?
      some { id := 61, raw := raw, type := "HT Operation", elements := [
        ("primary_channel", .vInt (Int.ofNat primary)),
        ("secondary_channel_offset", .vInt (Int.ofNat (h0 &&& 0x03))),
        ("sta_channel_width", .vInt (Int.ofNat ((h0 >>> 2) &&& 0x01))),
        ("rifs_mode", .vInt (Int.ofNat ((h0 >>> 3) &&& 0x01))),
        ("ht_protection", .vInt (Int.ofNat (h1 &&& 0x02))),
        ("nongf_ht_sta_present", .vInt (Int.ofNat ((h1 >>> 2) &&& 0x01))),
        ("obss_nonht_sta_present", .vInt (Int.ofNat ((h1 >>> 4) &&& 0x01))),
        ("channel_center_freq_segment_2",
          .vInt (Int.ofNat (((h1 >>> 5) &&& 0x03) + (h2 <<< 8)))),
        ("dual_beacon", .vInt (Int.ofNat ((h3 >>> 6) &&& 0x01))),
        ("dual_cts_protection", .vInt (Int.ofNat ((h3 >>> 7) &&& 0x01))),
        ("stbc_beacon", .vInt (Int.ofNat (h4 &&& 0x01))),
        ("lsig_txop_protection", .vInt (Int.ofNat ((h4 >>> 1) &&& 0x01))),
        ("pco_active", .vInt (Int.ofNat ((h4 >>> 2) &&& 0x01))),
        ("pco_phase", .vInt (Int.ofNat ((h4 >>> 3) &&& 0x01))),
        ("basic_mcs_set", .vInt (Int.ofNat (int_from_bytes_le (pySlice byte_data 8 24))))] }
    | 192 => do
      -- VHT Operation.
      let cw : Nat ← byte_data[2]?
      let c0 : Nat ← byte_data[3]?
      let c1 : Nat ← byte_data[4]?
      some { id := 192, raw := raw, type := "VHT Operation", elements := [
        ("channel_width", .vInt (Int.ofNat cw)),
        ("channel_center_freq_0", .vInt (Int.ofNat c0)),
        ("channel_center_freq_1", .vInt (Int.ofNat c1)),
        ("basic_mcs_set", .vInt (Int.ofNat (int_from_bytes_le (pySlice byte_data 5 7))))] }
    | 255 => do
      -- Element extension: ext_id is stored first, then the inner match.
      let ext : Nat ← byte_data[2]?
      match ext with
      | 36 => do
        -- HE Operation.
        let hti := pySlice byte_data 3 6
        let e0 : Nat ← hti[0]?
        let e1 : Nat ← hti[1]?
        let e2 : Nat ← hti[2]?
        let bc : Nat ← byte_data[6]?
        let vip := (e1 >>> 6) &&& 0x01
        let coho := (e1 >>> 7) &&& 0x01
        let g6 := (e2 >>> 1) &&& 0x01
        -- txop_dur_rts_thresh is transcribed with the source's literal
        -- Python expression `(a >> 4) & 0x0F + (b & 0x3F)`; both in
        -- Python and in Lean `+` binds tighter than the bitwise and, so
        -- it means `(a >>> 4) &&& (0x0F + (b &&& 0x3F))`.
        let base : List (String × Value) := [
          ("ext_id", .vInt 36),
          ("default_pe_duration", .vInt (Int.ofNat (e0 &&& 0x07))),
          ("twt_required", .vInt (Int.ofNat ((e0 >>> 3) &&& 0x01))),
          ("txop_dur_rts_thresh", .vInt (Int.ofNat ((e0 >>> 4) &&& 0x0F + (e1 &&& 0x3F)))),
          ("vht_info_present", .vInt (Int.ofNat vip)),
          ("cohosted_bss", .vInt (Int.ofNat coho)),
          ("er_su_disable", .vInt (Int.ofNat (e2 &&& 0x01))),
          ("6ghz_info_present", .vInt (Int.ofNat g6)),
          ("bss_color", .vInt (Int.ofNat (bc &&& 0x3F))),
          ("partial_bss_color", .vInt (Int.ofNat ((bc >>> 6) &&& 0x01))),
          ("bss_color_disabled", .vInt (Int.ofNat ((bc >>> 7) &&& 0x01))),
          ("basic_mcs_set", .vInt (Int.ofNat (int_from_bytes_le (pySlice byte_data 7 9))))]
        -- `if (output["elements"]["vht_info_present"]):` tests int
        -- truthiness, i.e. nonzero.
        let s1 ← (if vip ≠ 0 then do
            let w : Nat ← byte_data[9]?
            let f0 : Nat ← byte_data[10]?
            let f1 : Nat ← byte_data[11]?
            some (base ++ [("vht_info", Value.vObj [
              ("channel_width", (w : Int)),
              ("channel_center_freq_0", (f0 : Int)),
              ("channel_center_freq_1", (f1 : Int))])], 12)
          else
            some (base, 9))
        let s2 ← (if coho ≠ 0 then do
            let m : Nat ← byte_data[s1.2]?
            some (s1.1 ++ [("max_cohosted_bss_indicator", Value.vInt (Int.ofNat m))],
              s1.2 + 1)
          else
            some s1)
        let s3 ← (if g6 ≠ 0 then do
            -- the source reads `control = byte_data[start_index + 1]`
            -- first, then the dict literal reads the other bytes.
            let control : Nat ← byte_data[s2.2 + 1]?
            let pc : Nat ← byte_data[s2.2]?
            let q0 : Nat ← byte_data[s2.2 + 2]?
            let q1 : Nat ← byte_data[s2.2 + 3]?
            let mr : Nat ← byte_data[s2.2 + 4]?
            some (s2.1 ++ [("6ghz_info", Value.vObj [
              ("primary_channel", (pc : Int)),
              ("channel_width", Int.ofNat (control &&& 0x03)),
              ("duplicate_beacon", Int.ofNat ((control >>> 2) &&& 0x01)),
              ("regulatory_info", Int.ofNat ((control >>> 3) &&& 0x07)),
              ("channel_center_freq_0", (q0 : Int)),
              ("channel_center_freq_1", (q1 : Int)),
              ("min_rate", (mr : Int))])], s2.2 + 5)
          else
            some s2)
        some { id := 255, raw := raw, type := "HE Operation",
               elements := s3.1 }
      | _ =>
        some { id := 255, raw := raw, type := "Unknown",
               elements := [("ext_id", .vInt ext)] }
    | _ =>
      some { id := b0, raw := raw, type := "Unknown", elements := [] }

/-- Value of a single hex digit (`bytes.fromhex` accepts both cases). -/
def hexDigitVal (c : Char) : Option Nat :=
  if c.isDigit then some (c.toNat - 48)
  else if 65 ≤ c.toNat ∧ c.toNat ≤ 70 then some (c.toNat - 55)
  else if 97 ≤ c.toNat ∧ c.toNat ≤ 102 then some (c.toNat - 87)
  else none

/-- `bytes.fromhex`: pairs of hex digits, ASCII spaces allowed between
pairs, anything else (including an odd trailing digit) raises
`ValueError`, modelled as `none`. -/
def bytesFromHexAux : List Char → Option (List Nat)
  | [] => some []
  | c :: cs =>
    if c = ' ' then bytesFromHexAux cs
    else
      match cs with
      | [] => none
      | d :: ds => do
        let h ← hexDigitVal c
        let l ← hexDigitVal d
        let rest ← bytesFromHexAux ds
        some ((16 * h + l) :: rest)

/-- `bytes.fromhex` on a string. -/
def bytesFromHex (s : String) : Option (List Nat) :=
  bytesFromHexAux s.data

/-- Source `read_beacon_ie` on its actual argument, the scanned hex
string: `bytes.fromhex` first (its `ValueError` also modelled as
`none`), then the dispatch. -/
def read_beacon_ie (ie_hex_string : String) : Option IEOut :=
  (bytesFromHex ie_hex_string).bind (read_beacon_ie_core ie_hex_string)

/-! ### Embedding of the `re` patterns (wifi_scan.py:4-20, 177-178)

Each compiled pattern becomes a matcher
`List Char → Option (List Char × List Char)` that attempts a match at
the start of its input, returning the captured group (for group-free
patterns, the whole match) and the remainder after the whole match.
`findAll` reproduces `pattern.findall(text)`: try the matcher at every
position from the left and resume after each match.  Python's `\d`,
`\s`, `[a-f]` etc. are modelled over ASCII, which covers the
scan/link-tool output these patterns are applied to. -/

/-- Python `\s` (ASCII range). -/
def isWs (c : Char) : Bool :=
  c == ' ' || c == '\t' || c == '\n' || c == '\r' || c == '\x0b' || c == '\x0c'

/-- Character class `[0-9A-F]` (the `extras` hex run). -/
def isUpHex (c : Char) : Bool :=
  c.isDigit || (decide (65 ≤ c.toNat) && decide (c.toNat ≤ 70))

/-- Character class `[0-9A-F:]` (the `bssid` pattern). -/
def isBssidChar (c : Char) : Bool :=
  isUpHex c || c == ':'

/-- Character class `[\d\.]` (the `freq` pattern). -/
def isFreqChar (c : Char) : Bool :=
  c.isDigit || c == '.'

/-- Character class `[-\d\.]` (the two rssi patterns). -/
def isRssiChar (c : Char) : Bool :=
  c.isDigit || c == '.' || c == '-'

/-- Character class `[\da-f]` (the `Connected to` MAC pattern). -/
def isLowHex (c : Char) : Bool :=
  c.isDigit || (decide (97 ≤ c.toNat) && decide (c.toNat ≤ 102))

/-- Consume an exact literal, returning the remainder. -/
def dropLit : List Char → List Char → Option (List Char)
  | [], s => some s
  | _ :: _, [] => none
  | l :: ls, c :: cs => if c == l then dropLit ls cs else none

/-- Greedy ` *`: drop all leading spaces. -/
def dropSpaces (s : List Char) : List Char :=
  s.dropWhile (· == ' ')

/-- Greedy `X+` for a character class: the maximal nonempty run. -/
def takeRun (p : Char → Bool) (s : List Char) : Option (List Char × List Char) :=
  let r := s.takeWhile p
  if r.isEmpty then none else some (r, s.drop r.length)

/-- `X{n}` for a character class: exactly `n` characters. -/
def takeCount (p : Char → Bool) : Nat → List Char → Option (List Char × List Char)
  | 0, s => some ([], s)
  | _ + 1, [] => none
  | n + 1, c :: cs =>
    if p c then (takeCount p n cs).map (fun x => (c :: x.1, x.2)) else none

/-- A single character from a class. -/
def expectOne (p : Char → Bool) : List Char → Option (Char × List Char)
  | [] => none
  | c :: cs => if p c then some (c, cs) else none

/-- `pattern.findall(text)`: scan left to right, trying the matcher at
each position and resuming after each match.  One unit of fuel is spent
per scanned position; every matcher used below consumes at least one
character on success, so `s.length` fuel always suffices. -/
def findAll (m : List Char → Option (List Char × List Char)) :
    Nat → List Char → List (List Char)
  | 0, _ => []
  | _ + 1, [] => []
  | fuel + 1, c :: cs =>
    match m (c :: cs) with
    | some (cap, rest) => cap :: findAll m fuel rest
    | none => findAll m fuel cs

/-- `findall` with the fuel filled in. -/
def reFindall (m : List Char → Option (List Char × List Char))
    (s : List Char) : List (List Char) :=
  findAll m s.length s

/-- First occurrence of a literal separator: the part before it and the
part after it. -/
def findSep (sep : List Char) : List Char → Option (List Char × List Char)
  | [] => none
  | c :: cs =>
    if sep.isPrefixOf (c :: cs) then some ([], (c :: cs).drop sep.length)
    else (findSep sep cs).map (fun pq => (c :: pq.1, pq.2))

/-- Python `str.split(sep)` for a nonempty separator: split at each
non-overlapping occurrence, left to right, keeping empty pieces.  Fuel:
each recursive step removes one (nonempty) separator occurrence, so
`s.length + 1` suffices. -/
def splitLit (sep : List Char) : Nat → List Char → List (List Char)
  | 0, s => [s]
  | fuel + 1, s =>
    match findSep sep s with
    | some (pre, post) => pre :: splitLit sep fuel post
    | none => [s]

/-- `re_sub.sub(" ", results)` for `re_sub = re.compile(r"\s+")`:
replace every maximal whitespace run by a single space.  The flag
records whether the previous character was whitespace. -/
def collapseWsAux : Bool → List Char → List Char
  | _, [] => []
  | inRun, c :: cs =>
    if isWs c then
      if inRun then collapseWsAux true cs else ' ' :: collapseWsAux true cs
    else c :: collapseWsAux false cs

/-- Whitespace collapse of a whole string. -/
def collapseWs (s : List Char) : List Char :=
  collapseWsAux false s

/-- Python `str.upper()` restricted to ASCII (the uppercased strings are
MACs matched by `[\da-f:]`, all ASCII); `Char.toUpper` uppercases
exactly the ASCII letters. -/
def asciiUpper (s : List Char) : List Char :=
  s.map Char.toUpper

/-- Python `str.replace(",", ".")`: the pattern is a single character,
so the replacement is a character map. -/
def replaceComma (s : List Char) : List Char :=
  s.map (fun c => if c == ',' then '.' else c)

/-- Pattern `Address: *([0-9A-F:]+)`.  No backtracking into ` *` is
needed: if no class character follows the maximal space run, giving a
space back makes the run start with `' '`, which is not in the class. -/
def matchBssid (s : List Char) : Option (List Char × List Char) := do
  let s1 ← dropLit "Address:".data s
  takeRun isBssidChar (dropSpaces s1)

/-- Pattern `Channel: *(\d+)`. -/
def matchChannel (s : List Char) : Option (List Char × List Char) := do
  let s1 ← dropLit "Channel:".data s
  takeRun Char.isDigit (dropSpaces s1)

/-- Tail ` ?.Hz` of the `freq` pattern without the optional space:
`.` is any character but `'\n'`, then the literal `Hz`. -/
def freqTailBare : List Char → Option (List Char × List Char)
  | [] => none
  | c :: rest =>
    if c != '\n' then (dropLit "Hz".data rest).map (fun r => ([c, 'H', 'z'], r))
    else none

/-- Tail ` ?.Hz` of the `freq` pattern: the greedy optional space is
tried first, then the spaceless alternative. -/
def freqTail (s : List Char) : Option (List Char × List Char) :=
  match s with
  | ' ' :: c :: rest =>
    if c != '\n' then
      match dropLit "Hz".data rest with
      | some r => some ([' ', c, 'H', 'z'], r)
      | none => freqTailBare s
    else freqTailBare s
  | _ => freqTailBare s

/-- Backtracking over the greedy `[\d\.]+` run of the `freq` pattern:
`revKept` is the run still kept, reversed; on failure of the tail the
last run character is given back, down to a run of one character. -/
def freqShrink : List Char → List Char → Option (List Char × List Char)
  | [], _ => none
  | k :: ks, rest =>
    match freqTail rest with
    | some (tl, r) => some ((k :: ks).reverse ++ tl, r)
    | none =>
      match ks with
      | [] => none
      | _ :: _ => freqShrink ks (k :: rest)

/-- Pattern `Frequency: *([\d\.]+ ?.Hz)`. -/
def matchFreq (s : List Char) : Option (List Char × List Char) := do
  let s1 ← dropLit "Frequency:".data s
  let s2 := dropSpaces s1
  let run := s2.takeWhile isFreqChar
  if run.isEmpty then none
  else freqShrink run.reverse (s2.drop run.length)

/-- Tail ` ?dBm` of the two rssi patterns: greedy optional space first.
No backtracking into the `[-\d\.]+` run is needed: the tail starts with
`' '` or `'d'`, neither of which is in the run's class, so the maximal
run never steals a character the tail could use. -/
def rssiTail (s : List Char) : Option (List Char × List Char) :=
  match s with
  | ' ' :: rest =>
    match dropLit "dBm".data rest with
    | some r => some ([' ', 'd', 'B', 'm'], r)
    | none => (dropLit "dBm".data s).map (fun r => ("dBm".data, r))
  | _ => (dropLit "dBm".data s).map (fun r => ("dBm".data, r))

/-- Pattern `Signal level= *([-\d\.]+ ?dBm)`. -/
def matchRssi (s : List Char) : Option (List Char × List Char) := do
  let s1 ← dropLit "Signal level=".data s
  let (run, s3) ← takeRun isRssiChar (dropSpaces s1)
  let (tl, s4) ← rssiTail s3
  some (run ++ tl, s4)

/-- Pattern `signal: *([-\d\.]+ ?dBm)` (`re_link_rssi`). -/
def matchLinkRssi (s : List Char) : Option (List Char × List Char) := do
  let s1 ← dropLit "signal:".data s
  let (run, s3) ← takeRun isRssiChar (dropSpaces s1)
  let (tl, s4) ← rssiTail s3
  some (run ++ tl, s4)

/-- Pattern `ESSID: *\"([^\"]+)\"`: the capture is the nonempty run
between the quotes. -/
def matchSsid (s : List Char) : Option (List Char × List Char) := do
  let s1 ← dropLit "ESSID:".data s
  let (_, s3) ← expectOne (· == '"') (dropSpaces s1)
  let (run, s4) ← takeRun (· != '"') s3
  let (_, s5) ← expectOne (· == '"') s4
  some (run, s5)

/-- Pattern `\d+ Mb/s` (no group: the whole match is collected). -/
def matchRates (s : List Char) : Option (List Char × List Char) := do
  let (ds, s1) ← takeRun Char.isDigit s
  let s2 ← dropLit " Mb/s".data s1
  some (ds ++ " Mb/s".data, s2)

/-- Pattern `IE: +Unknown: +([0-9A-F]+)`: the `+` quantifiers require at
least one space. -/
def matchExtras (s : List Char) : Option (List Char × List Char) := do
  let s1 ← dropLit "IE:".data s
  let (_, s2) ← takeRun (· == ' ') s1
  let s3 ← dropLit "Unknown:".data s2
  let (_, s4) ← takeRun (· == ' ') s3
  takeRun isUpHex s4

/-- Tail `(.+)` of the bitrate patterns, preceded by the greedy ` *`:
`.` is any character but `'\n'` and the run must be nonempty.  When
nothing but a newline (or the end) follows the spaces, the regex gives
one space back and `.+` matches just that space. -/
def matchDotPlus (s1 : List Char) : Option (List Char × List Char) :=
  let sp := s1.takeWhile (· == ' ')
  let afterSp := s1.drop sp.length
  let run := afterSp.takeWhile (· != '\n')
  if !run.isEmpty then some (run, afterSp.drop run.length)
  else if !sp.isEmpty then some ([' '], afterSp)
  else none

/-- Pattern `tx bitrate: *(.+)` (`re_tx_bitrate`). -/
def matchTx (s : List Char) : Option (List Char × List Char) :=
  (dropLit "tx bitrate:".data s).bind matchDotPlus

/-- Pattern `rx bitrate: *(.+)` (`re_rx_bitrate`). -/
def matchRx (s : List Char) : Option (List Char × List Char) :=
  (dropLit "rx bitrate:".data s).bind matchDotPlus

/-- A single class character as a one-character string piece, for
sequencing. -/
def expectStr (p : Char → Bool) (s : List Char) :
    Option (List Char × List Char) :=
  (expectOne p s).map (fun x => ([x.1], x.2))

/-- Sequence fixed pattern components (no backtracking between them:
every component below is either a fixed-width class repetition, a
literal character, or a greedy run whose class excludes the next
component's characters), concatenating what they consume. -/
def seqParts : List (List Char → Option (List Char × List Char)) →
    List Char → Option (List Char × List Char)
  | [], s => some ([], s)
  | p :: ps, s =>
    match p s with
    | none => none
    | some (a, s1) =>
      match seqParts ps s1 with
      | none => none
      | some (b, s2) => some (a ++ b, s2)

/-- Pattern
`Connected to *([\da-f]{2}:[\da-f]{2}:[\da-f]{2}:[\da-f]{2}:[\da-f]{2}:[\da-f]{2})`
compiled inside `process_link`: six two-character lowercase-hex groups
separated by colons. -/
def matchConnected (s : List Char) : Option (List Char × List Char) := do
  let s1 ← dropLit "Connected to".data s
  seqParts [takeCount isLowHex 2, expectStr (· == ':'),
    takeCount isLowHex 2, expectStr (· == ':'),
    takeCount isLowHex 2, expectStr (· == ':'),
    takeCount isLowHex 2, expectStr (· == ':'),
    takeCount isLowHex 2, expectStr (· == ':'),
    takeCount isLowHex 2] (dropSpaces s1)

/-- Pattern `\d{4}-\d{2}-\d{2}T\d{2}:\d{2}:\d{2},\d+[+-]\d{2}:\d{2}`
(`re_timestamp`, no group: the whole match is collected). -/
def matchTimestamp (s : List Char) : Option (List Char × List Char) :=
  seqParts [takeCount Char.isDigit 4, expectStr (· == '-'),
    takeCount Char.isDigit 2, expectStr (· == '-'),
    takeCount Char.isDigit 2, expectStr (· == 'T'),
    takeCount Char.isDigit 2, expectStr (· == ':'),
    takeCount Char.isDigit 2, expectStr (· == ':'),
    takeCount Char.isDigit 2, expectStr (· == ','),
    takeRun Char.isDigit,
    expectStr (fun c => c == '+' || c == '-'),
    takeCount Char.isDigit 2, expectStr (· == ':'),
    takeCount Char.isDigit 2] s

/-! ### The three text-processing functions -/

/-- Source `process_link` (wifi_scan.py:171-193): first match of the
`Connected to` pattern uppercased, first tx/rx bitrate captures, empty
strings when absent; `if (result):` is string truthiness, so an empty
input skips the matching entirely (all fields keep their defaults). -/
def process_link (result : String) : LinkSummary :=
  let s := result.data
  if s.isEmpty then { bssid := "", tx_bitrate := "", rx_bitrate := "" }
  else
    { bssid := String.mk (asciiUpper ((reFindall matchConnected s).headD [])),
      tx_bitrate := String.mk ((reFindall matchTx s).headD []),
      rx_bitrate := String.mk ((reFindall matchRx s).headD []) }

/-- The loop `for i in range(0, len(rx_bitrates))` of
`process_link_results`, which indexes `timestamps[i]`, `rssis[i]`,
`tx_bitrates[i]`, `rx_bitrates[i]`: rendered as simultaneous recursion
on the four match lists.  Iteration stops after `len(rx_bitrates)`
samples (extra entries of the other lists are ignored); an exhausted
other list is Python's `IndexError`, hence `none`. -/
def build_samples : List (List Char) → List (List Char) → List (List Char) →
    List (List Char) → Option (List LinkSample)
  | _, _, _, [] => some []
  | t :: ts, r :: rs, x :: xs, y :: ys =>
    (build_samples ts rs xs ys).map
      (fun out =>
        { timestamp := String.mk (replaceComma t), rssi := String.mk r,
          tx_bitrate := String.mk x, rx_bitrate := String.mk y } :: out)
  | _, _, _, _ => none

/-- Source `process_link_results` (wifi_scan.py:196-212). -/
def process_link_results (results : String) : Option (List LinkSample) :=
  let s := results.data
  build_samples (reFindall matchTimestamp s) (reFindall matchLinkRssi s)
    (reFindall matchTx s) (reFindall matchRx s)

/-- `Option`-propagating map, mirroring a Python loop in which any
iteration may raise. -/
def mapMOpt {α β : Type} (f : α → Option β) : List α → Option (List β)
  | [] => some []
  | a :: as =>
    match f a, mapMOpt f as with
    | some b, some bs => some (b :: bs)
    | _, _ => none

/-- The per-entry body of the loop in `process_scan_results`
(wifi_scan.py:219-244): each field of the fresh cell dict is the first
match of its pattern (or keeps its default), `rates` collects all
matches, and each `extras` hex capture goes through `read_beacon_ie`
(whose exceptions, including `bytes.fromhex` failures, propagate). -/
def parseCell (entry : List Char) : Option Cell :=
  match mapMOpt (fun h => read_beacon_ie (String.mk h))
      (reFindall matchExtras entry) with
  | none => none
  | some ies =>
    some { bssid := String.mk ((reFindall matchBssid entry).headD []),
           channel := String.mk ((reFindall matchChannel entry).headD []),
           freq := String.mk ((reFindall matchFreq entry).headD []),
           rssi := String.mk ((reFindall matchRssi entry).headD []),
           ssid := String.mk ((reFindall matchSsid entry).headD []),
           connected := false,
           rates := (reFindall matchRates entry).map String.mk,
           tx_bitrate := "",
           rx_bitrate := "",
           extras := ies }

/-- The correlation branch of `process_scan_results`
(wifi_scan.py:246-251): exact string comparison of the cell's bssid
with the link's bssid; on equality the connected flag is set and both
bitrates are copied. -/
def correlateCell (wifi_link : LinkSummary) (cell : Cell) : Cell :=
  if cell.bssid = wifi_link.bssid then
    { cell with connected := true, tx_bitrate := wifi_link.tx_bitrate,
                rx_bitrate := wifi_link.rx_bitrate }
  else cell

/-- Source `process_scan_results` (wifi_scan.py:215-253): collapse
whitespace, split on `"Cell"`, parse every entry (exceptions
propagate), keep the cells with a nonempty bssid, correlating each kept
cell against the link summary as it is appended. -/
def process_scan_results (results : String) (wifi_link : LinkSummary) :
    Option (List Cell) :=
  let entries := splitLit "Cell".data (results.data.length + 1)
    (collapseWs results.data)
  match mapMOpt parseCell entries with
  | none => none
  | some cells =>
    some ((cells.filter (fun c => c.bssid != "")).map (correlateCell wifi_link))

/-! ### Claim theorems -/

/-- Claim C8 (confirmed): decoding the BSS Load element bytes
`fromhex("0B04" + "0500" + "80" + "0000")` yields type "BSS Load" with
`sta_count = 5` (little-endian 16-bit at payload bytes 0-1),
`ch_utilization = 128/255` and `available_admission_cap = 0`
(little-endian 16-bit at payload bytes 3-4). -/
theorem c8_bss_load_decode :
    read_beacon_ie "0B040500800000" = some
      { id := 11, raw := "0B040500800000", type := "BSS Load", elements := [
        ("sta_count", .vInt 5),
        ("ch_utilization", .vRat (128 / 255)),
        ("available_admission_cap", .vInt 0)] } := by
  rfl

/-- Claim C2, counterexample: decoding `fromhex("2302FF7F")` yields
`tx_power = 255`, not `-1`: `byte_uint_to_int` tests the 16-bit sign
bit `0x8000`, which an 8-bit field value never has set, so `0xFF` is
returned unchanged. -/
theorem c2_counterexample :
    read_beacon_ie "2302FF7F" = some
      { id := 35, raw := "2302FF7F", type := "TPC Report", elements := [
        ("tx_power", .vInt 255),
        ("link_margin", .vInt 127)] }
    ∧ (255 : Int) ≠ -1 := by
  exact ⟨by rfl, by decide⟩

/-- Claim C2, amended: `byte_uint_to_int` returns every value below
`256` unchanged (8-bit sign bits are never recovered), while the 16-bit
case of the claim does hold (`0x8000` decodes to `-32768`); decoding
`"2302FF7F"` therefore yields `tx_power = 255` and `link_margin = 127`. -/
theorem c2_amended :
    ∀ x : Nat, (x < 256 → byte_uint_to_int x = (x : Int))
      ∧ byte_uint_to_int 0x8000 = -32768
      ∧ read_beacon_ie "2302FF7F" = some
        { id := 35, raw := "2302FF7F", type := "TPC Report", elements := [
          ("tx_power", .vInt 255),
          ("link_margin", .vInt 127)] } := by
  intro x
  refine ⟨fun hx => ?_, by decide, by rfl⟩
  have hbit : x.testBit 15 = false :=
    Nat.testBit_lt_two_pow (lt_of_lt_of_le hx (by norm_num))
  have hand : x &&& 0x8000 = 0 := by
    rw [show (0x8000 : Nat) = 2 ^ 15 by norm_num, Nat.and_two_pow, hbit]
    rfl
  simp [byte_uint_to_int, hand]

/-- Witness for the amended C2 at the claim's own byte value `0xFF`. -/
theorem c2_witness : byte_uint_to_int 255 = (255 : Int) :=
  (c2_amended 255).1 (by decide)

/-- Claim C1, counterexample: on the empty byte sequence (a raw byte
sequence of length < 2) the decoder does not return a `type = "Unknown"`
record — `byte_data[0]` raises `IndexError`, modelled as `none`. -/
theorem c1_counterexample : read_beacon_ie "" = none := by rfl

/-- Claim C6, counterexample: a link-status text with no
`Connected to` association line but with a `tx bitrate:` line does not
give the all-empty summary — the three patterns are matched
independently. -/
theorem c6_counterexample :
    reFindall matchConnected "tx bitrate: 54.0 MBit/s".data = []
    ∧ process_link "tx bitrate: 54.0 MBit/s" =
      { bssid := "", tx_bitrate := "54.0 MBit/s", rx_bitrate := "" }
    ∧ ({ bssid := "", tx_bitrate := "54.0 MBit/s", rx_bitrate := "" }
        : LinkSummary) ≠ { bssid := "", tx_bitrate := "", rx_bitrate := "" } := by
  exact ⟨by decide, by decide, by decide⟩

/-- Claim C6, amended: when no `Connected to` association line matches,
only the `bssid` field is guaranteed empty; the summary is all-empty
when additionally neither bitrate pattern matches (so in particular for
outputs like `"Not connected."`). -/
theorem c6_amended :
    ∀ result : String,
      (reFindall matchConnected result.data = [] →
        (process_link result).bssid = "")
      ∧ (reFindall matchConnected result.data = []
          ∧ reFindall matchTx result.data = []
          ∧ reFindall matchRx result.data = [] →
        process_link result =
          { bssid := "", tx_bitrate := "", rx_bitrate := "" }) := by
  intro result
  constructor
  · intro hc
    simp only [process_link]
    split
    · rfl
    · simp [hc, asciiUpper]
  · rintro ⟨hc, htx, hrx⟩
    simp only [process_link]
    split
    · rfl
    · simp [hc, htx, hrx, asciiUpper]

/-- Witness for the amended C6 on a disconnected link-status text. -/
theorem c6_witness :
    process_link "Not connected." =
      { bssid := "", tx_bitrate := "", rx_bitrate := "" } :=
  (c6_amended "Not connected.").2 ⟨by decide, by decide, by decide⟩

/-- Claim C3, counterexample: the bssid comparison of
`process_scan_results` is case-sensitive — a scanned cell with bssid
`AA:BB:CC:DD:EE:FF` correlated against a link summary whose bssid is the
lowercase `aa:bb:cc:dd:ee:ff` ends with `connected = false` and no
bitrates copied, where the claim requires `connected = true`. -/
theorem c3_counterexample :
    process_scan_results "Cell 1 - Address: AA:BB:CC:DD:EE:FF"
      { bssid := "aa:bb:cc:dd:ee:ff", tx_bitrate := "54 Mb/s",
        rx_bitrate := "36 Mb/s" } =
    some [{ bssid := "AA:BB:CC:DD:EE:FF", channel := "", freq := "",
            rssi := "", ssid := "", connected := false, rates := [],
            tx_bitrate := "", rx_bitrate := "", extras := [] }] := by
  decide

/-- Claim C7, counterexample: a scan text containing two cells with the
same bssid, both equal to the link's bssid, gets both cells marked
`connected = true` — more than one cell can be marked per call. -/
theorem c7_counterexample :
    (process_scan_results
      "Cell 1 - Address: AA:BB:CC:DD:EE:FF Cell 2 - Address: AA:BB:CC:DD:EE:FF"
      { bssid := "AA:BB:CC:DD:EE:FF", tx_bitrate := "54 Mb/s",
        rx_bitrate := "36 Mb/s" }).map (fun cs => cs.map Cell.connected) =
    some [true, true] := by
  decide

/-- Claim C4, counterexample: a polled-link text whose only match is an
`rx bitrate:` line makes `process_link_results` raise (`timestamps[0]`
is an `IndexError`, modelled as `none`) instead of returning the
`min`-bounded zero samples the claim promises. -/
theorem c4_counterexample :
    process_link_results "rx bitrate: 36.0 MBit/s" = none := by decide

/-- Claim C9, counterexample: a scan block whose Address value is the
lowercase `12:34:56:78:9a:bc` does not leave the bssid empty and is not
dropped — the `[0-9A-F:]+` class matches the digit/colon part up to the
first lowercase letter, so the cell is kept with the truncated bssid
`12:34:56:78:9`. -/
theorem c9_counterexample :
    (process_scan_results "Cell 1 - Address: 12:34:56:78:9a:bc"
      { bssid := "", tx_bitrate := "", rx_bitrate := "" }).map
        (fun cs => cs.map Cell.bssid) =
    some ["12:34:56:78:9"] := by
  decide

/-- Claim C9, amended: the bssid pattern is uppercase-only, so an
Address value that *starts* with a lowercase hex letter yields an empty
bssid and the cell is dropped, and the lowercase-only `Connected to`
pattern leaves the link bssid empty for an uppercase MAC; but a
lowercase Address value with a leading digit/colon segment is kept with
a truncated, nonempty bssid. -/
theorem c9_amended :
    process_scan_results "Cell 1 - Address: aa:bb:cc:dd:ee:ff"
      { bssid := "", tx_bitrate := "", rx_bitrate := "" } = some []
    ∧ (process_link "Connected to AA:BB:CC:DD:EE:FF").bssid = ""
    ∧ ∃ c : Cell,
        process_scan_results "Cell 1 - Address: 12:34:56:78:9a:bc"
          { bssid := "", tx_bitrate := "", rx_bitrate := "" } = some [c]
        ∧ c.bssid = "12:34:56:78:9" ∧ c.bssid ≠ "" := by
  refine ⟨by decide, by decide,
    ⟨{ bssid := "12:34:56:78:9", channel := "", freq := "", rssi := "",
       ssid := "", connected := false, rates := [], tx_bitrate := "",
       rx_bitrate := "", extras := [] }, by decide, by decide, by decide⟩⟩

/-! ### Structural lemmas about the scan pipeline -/

/-- Every element of a successful `mapMOpt` run comes from applying the
function to some input element. -/
theorem mapMOpt_mem {α β : Type} (f : α → Option β) :
    ∀ {l : List α} {bs : List β}, mapMOpt f l = some bs →
      ∀ {b : β}, b ∈ bs → ∃ a, a ∈ l ∧ f a = some b := by
  intro l
  induction l with
  | nil =>
    intro bs h b hb
    simp only [mapMOpt] at h
    cases h
    simp at hb
  | cons a as ih =>
    intro bs h b hb
    simp only [mapMOpt] at h
    cases hfa : f a with
    | none => rw [hfa] at h; cases h
    | some b0 =>
      cases hrec : mapMOpt f as with
      | none => rw [hfa, hrec] at h; cases h
      | some bs0 =>
        rw [hfa, hrec] at h
        cases h
        rcases List.mem_cons.mp hb with hb0 | hbs0
        · subst hb0
          exact ⟨a, List.mem_cons_self a as, hfa⟩
        · rcases ih hrec hbs0 with ⟨a1, ha1, hfa1⟩
          exact ⟨a1, List.mem_cons_of_mem a ha1, hfa1⟩

/-- A freshly parsed cell has the defaults for the correlation fields:
no pattern of the per-entry loop writes `connected`, `tx_bitrate` or
`rx_bitrate`. -/
theorem parseCell_defaults {entry : List Char} {c : Cell}
    (h : parseCell entry = some c) :
    c.connected = false ∧ c.tx_bitrate = "" ∧ c.rx_bitrate = "" := by
  unfold parseCell at h
  split at h
  · cases h
  · cases h
    exact ⟨rfl, rfl, rfl⟩

/-- Correlation never changes the bssid. -/
theorem correlateCell_bssid (l : LinkSummary) (c : Cell) :
    (correlateCell l c).bssid = c.bssid := by
  unfold correlateCell
  split <;> rfl

/-- The two branches of the correlation step. -/
theorem correlateCell_cases (l : LinkSummary) (c : Cell) :
    (c.bssid = l.bssid →
      correlateCell l c = { c with connected := true,
                                   tx_bitrate := l.tx_bitrate,
                                   rx_bitrate := l.rx_bitrate })
    ∧ (c.bssid ≠ l.bssid → correlateCell l c = c) := by
  constructor <;> intro h <;> simp [correlateCell, h]

/-- Every cell of a successful `process_scan_results` run is the
correlation of a parsed cell with nonempty bssid. -/
theorem process_scan_results_mem {results : String}
    {wifi_link : LinkSummary} {out : List Cell} {c : Cell}
    (h : process_scan_results results wifi_link = some out) (hc : c ∈ out) :
    ∃ c0 : Cell, (∃ entry, parseCell entry = some c0)
      ∧ c0.bssid ≠ "" ∧ c = correlateCell wifi_link c0 := by
  simp only [process_scan_results] at h
  split at h
  · cases h
  case _ cells heq =>
    cases h
    rcases List.mem_map.mp hc with ⟨c0, hc0f, hcorr⟩
    have hc0 : c0 ∈ cells := List.mem_of_mem_filter hc0f
    have hbss : c0.bssid ≠ "" := by
      have := List.of_mem_filter hc0f
      simpa using this
    rcases mapMOpt_mem parseCell heq hc0 with ⟨entry, _, hpc⟩
    exact ⟨c0, ⟨entry, hpc⟩, hbss, hcorr.symm⟩

/-- Claim C3, amended: the connected flag produced by
`process_scan_results` records *exact, case-sensitive* equality of the
cell's bssid with the link's bssid (not the case-insensitive equality
the claim states); with the link bssid in the uppercase form that
`process_link` in fact produces, the cell is marked connected and both
bitrates are copied. -/
theorem c3_amended :
    (∀ (results : String) (wifi_link : LinkSummary) (out : List Cell)
      (c : Cell), process_scan_results results wifi_link = some out →
        c ∈ out → (c.connected = true ↔ c.bssid = wifi_link.bssid))
    ∧ process_scan_results "Cell 1 - Address: AA:BB:CC:DD:EE:FF"
        { bssid := "AA:BB:CC:DD:EE:FF", tx_bitrate := "54 Mb/s",
          rx_bitrate := "36 Mb/s" } =
      some [{ bssid := "AA:BB:CC:DD:EE:FF", channel := "", freq := "",
              rssi := "", ssid := "", connected := true, rates := [],
              tx_bitrate := "54 Mb/s", rx_bitrate := "36 Mb/s",
              extras := [] }] := by
  constructor
  · intro results wifi_link out c h hc
    obtain ⟨c0, ⟨entry, hpc⟩, hbss, rfl⟩ := process_scan_results_mem h hc
    obtain ⟨hconn, htx, hrx⟩ := parseCell_defaults hpc
    by_cases hb : c0.bssid = wifi_link.bssid
    · rw [(correlateCell_cases wifi_link c0).1 hb]
      simp [hb]
    · rw [(correlateCell_cases wifi_link c0).2 hb]
      simp [hconn, hb]
  · decide

/-- Witness for the amended C3 on the concrete correlated scan. -/
theorem c3_witness :
    (({ bssid := "AA:BB:CC:DD:EE:FF", channel := "", freq := "",
        rssi := "", ssid := "", connected := true, rates := [],
        tx_bitrate := "54 Mb/s", rx_bitrate := "36 Mb/s",
        extras := [] } : Cell).connected = true
      ↔ ({ bssid := "AA:BB:CC:DD:EE:FF", channel := "", freq := "",
           rssi := "", ssid := "", connected := true, rates := [],
           tx_bitrate := "54 Mb/s", rx_bitrate := "36 Mb/s",
           extras := [] } : Cell).bssid = "AA:BB:CC:DD:EE:FF") :=
  c3_amended.1 "Cell 1 - Address: AA:BB:CC:DD:EE:FF"
    { bssid := "AA:BB:CC:DD:EE:FF", tx_bitrate := "54 Mb/s",
      rx_bitrate := "36 Mb/s" }
    [{ bssid := "AA:BB:CC:DD:EE:FF", channel := "", freq := "",
       rssi := "", ssid := "", connected := true, rates := [],
       tx_bitrate := "54 Mb/s", rx_bitrate := "36 Mb/s", extras := [] }]
    { bssid := "AA:BB:CC:DD:EE:FF", channel := "", freq := "",
      rssi := "", ssid := "", connected := true, rates := [],
      tx_bitrate := "54 Mb/s", rx_bitrate := "36 Mb/s", extras := [] }
    (by decide) (by decide)

/-- Claim C7, amended: `process_scan_results` marks *every* returned
cell whose bssid equals the link's bssid (so duplicate bssids can give
more than one connected cell, and at most one only when the returned
bssids are distinct); every returned cell has a nonempty bssid, and
every cell not matching the link bssid keeps the parsed defaults
`connected = false` and empty bitrates. -/
theorem c7_amended :
    ∀ (results : String) (wifi_link : LinkSummary) (out : List Cell)
      (c : Cell), process_scan_results results wifi_link = some out →
      c ∈ out →
      c.bssid ≠ ""
      ∧ (c.bssid = wifi_link.bssid → c.connected = true
          ∧ c.tx_bitrate = wifi_link.tx_bitrate
          ∧ c.rx_bitrate = wifi_link.rx_bitrate)
      ∧ (c.bssid ≠ wifi_link.bssid → c.connected = false
          ∧ c.tx_bitrate = "" ∧ c.rx_bitrate = "") := by
  intro results wifi_link out c h hc
  obtain ⟨c0, ⟨entry, hpc⟩, hbss, rfl⟩ := process_scan_results_mem h hc
  obtain ⟨hconn, htx, hrx⟩ := parseCell_defaults hpc
  refine ⟨by rw [correlateCell_bssid]; exact hbss, ?_, ?_⟩
  · intro hb
    rw [correlateCell_bssid] at hb
    rw [(correlateCell_cases wifi_link c0).1 hb]
    exact ⟨rfl, rfl, rfl⟩
  · intro hb
    rw [correlateCell_bssid] at hb
    rw [(correlateCell_cases wifi_link c0).2 hb]
    exact ⟨hconn, htx, hrx⟩

/-- Witness for the amended C7 on a concrete non-matching cell. -/
theorem c7_witness :
    (({ bssid := "0A:0B:0C:0D:0E:0F", channel := "", freq := "",
        rssi := "", ssid := "", connected := false, rates := [],
        tx_bitrate := "", rx_bitrate := "", extras := [] } : Cell).bssid ≠ ""
      ∧ (({ bssid := "0A:0B:0C:0D:0E:0F", channel := "", freq := "",
            rssi := "", ssid := "", connected := false, rates := [],
            tx_bitrate := "", rx_bitrate := "", extras := [] } : Cell).bssid =
          "AA:BB:CC:DD:EE:FF" →
            ({ bssid := "0A:0B:0C:0D:0E:0F", channel := "", freq := "",
               rssi := "", ssid := "", connected := false, rates := [],
               tx_bitrate := "", rx_bitrate := "",
               extras := [] } : Cell).connected = true
            ∧ ({ bssid := "0A:0B:0C:0D:0E:0F", channel := "", freq := "",
                 rssi := "", ssid := "", connected := false, rates := [],
                 tx_bitrate := "", rx_bitrate := "",
                 extras := [] } : Cell).tx_bitrate = "54 Mb/s"
            ∧ ({ bssid := "0A:0B:0C:0D:0E:0F", channel := "", freq := "",
                 rssi := "", ssid := "", connected := false, rates := [],
                 tx_bitrate := "", rx_bitrate := "",
                 extras := [] } : Cell).rx_bitrate = "36 Mb/s")
      ∧ (({ bssid := "0A:0B:0C:0D:0E:0F", channel := "", freq := "",
            rssi := "", ssid := "", connected := false, rates := [],
            tx_bitrate := "", rx_bitrate := "", extras := [] } : Cell).bssid ≠
          "AA:BB:CC:DD:EE:FF" →
            ({ bssid := "0A:0B:0C:0D:0E:0F", channel := "", freq := "",
               rssi := "", ssid := "", connected := false, rates := [],
               tx_bitrate := "", rx_bitrate := "",
               extras := [] } : Cell).connected = false
            ∧ ({ bssid := "0A:0B:0C:0D:0E:0F", channel := "", freq := "",
                 rssi := "", ssid := "", connected := false, rates := [],
                 tx_bitrate := "", rx_bitrate := "",
                 extras := [] } : Cell).tx_bitrate = ""
            ∧ ({ bssid := "0A:0B:0C:0D:0E:0F", channel := "", freq := "",
                 rssi := "", ssid := "", connected := false, rates := [],
                 tx_bitrate := "", rx_bitrate := "",
                 extras := [] } : Cell).rx_bitrate = "")) :=
  c7_amended "Cell 1 - Address: 0A:0B:0C:0D:0E:0F"
    { bssid := "AA:BB:CC:DD:EE:FF", tx_bitrate := "54 Mb/s",
      rx_bitrate := "36 Mb/s" }
    [{ bssid := "0A:0B:0C:0D:0E:0F", channel := "", freq := "",
       rssi := "", ssid := "", connected := false, rates := [],
       tx_bitrate := "", rx_bitrate := "", extras := [] }]
    { bssid := "0A:0B:0C:0D:0E:0F", channel := "", freq := "",
      rssi := "", ssid := "", connected := false, rates := [],
      tx_bitrate := "", rx_bitrate := "", extras := [] }
    (by decide) (by decide)

/-! ### Lemmas about the polled-link sample loop -/

/-- The sample loop succeeds exactly when the timestamp, rssi and
tx-bitrate lists are at least as long as the rx-bitrate list. -/
theorem build_samples_isSome :
    ∀ ts rs xs ys : List (List Char),
      (build_samples ts rs xs ys).isSome = true ↔
        (ys.length ≤ ts.length ∧ ys.length ≤ rs.length
          ∧ ys.length ≤ xs.length) := by
  intro ts rs xs ys
  induction ys generalizing ts rs xs with
  | nil => simp [build_samples]
  | cons y ys ih =>
    cases ts with
    | nil => simp [build_samples]
    | cons t ts =>
      cases rs with
      | nil => simp [build_samples]
      | cons r rs =>
        cases xs with
        | nil => simp [build_samples]
        | cons x xs =>
          simp only [build_samples, Option.isSome_map', ih, List.length_cons]
          omega

/-- A successful sample loop returns one sample per rx-bitrate match. -/
theorem build_samples_length :
    ∀ {ts rs xs ys : List (List Char)} {out : List LinkSample},
      build_samples ts rs xs ys = some out → out.length = ys.length := by
  intro ts rs xs ys
  induction ys generalizing ts rs xs with
  | nil =>
    intro out h
    simp only [build_samples] at h
    cases h
    rfl
  | cons y ys ih =>
    intro out h
    cases ts with
    | nil => simp [build_samples] at h
    | cons t ts =>
      cases rs with
      | nil => simp [build_samples] at h
      | cons r rs =>
        cases xs with
        | nil => simp [build_samples] at h
        | cons x xs =>
          simp only [build_samples, Option.map_eq_some'] at h
          rcases h with ⟨out0, h0, rfl⟩
          simp [ih h0]

/-- The `i`-th sample of a successful loop carries the `i`-th timestamp
match with its comma replaced, and nothing else is done to it. -/
theorem build_samples_timestamp :
    ∀ {ts rs xs ys : List (List Char)} {out : List LinkSample},
      build_samples ts rs xs ys = some out →
      ∀ {i : Nat} {s : LinkSample}, out[i]? = some s →
        ∃ t, ts[i]? = some t ∧ s.timestamp = String.mk (replaceComma t) := by
  intro ts rs xs ys
  induction ys generalizing ts rs xs with
  | nil =>
    intro out h i s hs
    simp only [build_samples] at h
    cases h
    simp at hs
  | cons y ys ih =>
    intro out h i s hs
    cases ts with
    | nil => simp [build_samples] at h
    | cons t ts =>
      cases rs with
      | nil => simp [build_samples] at h
      | cons r rs =>
        cases xs with
        | nil => simp [build_samples] at h
        | cons x xs =>
          simp only [build_samples, Option.map_eq_some'] at h
          rcases h with ⟨out0, h0, rfl⟩
          cases i with
          | zero =>
            simp only [List.getElem?_cons_zero, Option.some.injEq] at hs
            subst hs
            exact ⟨t, by simp, rfl⟩
          | succ i =>
            simp only [List.getElem?_cons_succ] at hs ⊢
            exact ih h0 hs

/-- Claim C4, amended: `process_link_results` produces exactly one
sample per rx-bitrate match (not per `min` of the three lists), and it
raises an `IndexError` (modelled `none`) exactly when one of the
timestamp, rssi or tx-bitrate match lists is shorter than the
rx-bitrate match list. -/
theorem c4_amended :
    ∀ results : String,
      ((process_link_results results).isSome = true ↔
        ((reFindall matchRx results.data).length ≤
            (reFindall matchTimestamp results.data).length
          ∧ (reFindall matchRx results.data).length ≤
              (reFindall matchLinkRssi results.data).length
          ∧ (reFindall matchRx results.data).length ≤
              (reFindall matchTx results.data).length))
      ∧ ∀ out : List LinkSample, process_link_results results = some out →
          out.length = (reFindall matchRx results.data).length := by
  intro results
  constructor
  · simpa only [process_link_results] using
      build_samples_isSome (reFindall matchTimestamp results.data)
        (reFindall matchLinkRssi results.data)
        (reFindall matchTx results.data) (reFindall matchRx results.data)
  · intro out h
    simp only [process_link_results] at h
    exact build_samples_length h

/-- Witness for the amended C4 on one full poll cycle. -/
theorem c4_witness :
    ([{ timestamp := "2024-01-02T03:04:02.123+00:00", rssi := "-40 dBm",
        tx_bitrate := "54.0 MBit/s",
        rx_bitrate := "36.0 MBit/s" }] : List LinkSample).length =
      (reFindall matchRx
        ("2024-01-02T03:04:02,123+00:00\nsignal: -40 dBm\ntx bitrate: 54.0 MBit/s\nrx bitrate: 36.0 MBit/s\n"
          : String).data).length :=
  (c4_amended
    "2024-01-02T03:04:02,123+00:00\nsignal: -40 dBm\ntx bitrate: 54.0 MBit/s\nrx bitrate: 36.0 MBit/s\n").2
    [{ timestamp := "2024-01-02T03:04:02.123+00:00", rssi := "-40 dBm",
       tx_bitrate := "54.0 MBit/s", rx_bitrate := "36.0 MBit/s" }]
    (by decide)

/-- Claim C10 (confirmed): every sample produced by
`process_link_results` carries as its timestamp exactly the matched
timestamp string with its comma replaced by a period, and no other
transformation. -/
theorem c10_timestamp :
    ∀ (results : String) (out : List LinkSample) (i : Nat)
      (s : LinkSample), process_link_results results = some out →
      out[i]? = some s →
      ∃ t, (reFindall matchTimestamp results.data)[i]? = some t
        ∧ s.timestamp = String.mk (replaceComma t) := by
  intro results out i s h hs
  simp only [process_link_results] at h
  exact build_samples_timestamp h hs

/-- Witness for C10 on one full poll cycle: the matched timestamp
`...02,123...` becomes `...02.123...`. -/
theorem c10_witness :
    ∃ t, (reFindall matchTimestamp
        ("2024-01-02T03:04:02,123+00:00\nsignal: -40 dBm\ntx bitrate: 54.0 MBit/s\nrx bitrate: 36.0 MBit/s\n"
          : String).data)[0]? = some t
      ∧ ({ timestamp := "2024-01-02T03:04:02.123+00:00", rssi := "-40 dBm",
           tx_bitrate := "54.0 MBit/s",
           rx_bitrate := "36.0 MBit/s" } : LinkSample).timestamp =
          String.mk (replaceComma t) :=
  c10_timestamp
    "2024-01-02T03:04:02,123+00:00\nsignal: -40 dBm\ntx bitrate: 54.0 MBit/s\nrx bitrate: 36.0 MBit/s\n"
    [{ timestamp := "2024-01-02T03:04:02.123+00:00", rssi := "-40 dBm",
       tx_bitrate := "54.0 MBit/s", rx_bitrate := "36.0 MBit/s" }]
    0
    { timestamp := "2024-01-02T03:04:02.123+00:00", rssi := "-40 dBm",
      tx_bitrate := "54.0 MBit/s", rx_bitrate := "36.0 MBit/s" }
    (by decide) (by decide)

/-- Claim C1, amended: on the empty byte sequence the decoder raises
(`byte_data[0]` is an `IndexError`, modelled `none`), and on a length-1
sequence it raises whenever the element id is one of the recognized ids
(their payload reads are out of range) — only a length-1 sequence with
an *unrecognized* id yields `type = "Unknown"` without an exception.
Truncated inputs of recognized types raise instead of degrading to
"Unknown". -/
theorem c1_amended :
    ∀ (raw : String) (b : Nat),
      read_beacon_ie_core raw [] = none
      ∧ (b ∉ ([11, 35, 61, 192, 255] : List Nat) →
          read_beacon_ie_core raw [b] =
            some { id := b, raw := raw, type := "Unknown", elements := [] })
      ∧ (b ∈ ([11, 35, 61, 192, 255] : List Nat) →
          read_beacon_ie_core raw [b] = none) := by
  intro raw b
  refine ⟨rfl, fun hb => ?_, fun hb => ?_⟩
  · simp only [read_beacon_ie_core, List.getElem?_cons_zero]
    split <;> simp_all
  · simp only [read_beacon_ie_core, List.getElem?_cons_zero]
    split <;> simp_all

/-- Witness for the amended C1: the unrecognized id 99 decodes to
"Unknown" on a length-1 input, while the recognized id 11 raises
there. -/
theorem c1_witness :
    read_beacon_ie_core "" [99] =
      some { id := 99, raw := "", type := "Unknown", elements := [] }
    ∧ read_beacon_ie_core "" [11] = none :=
  ⟨(c1_amended "" 99).2.1 (by decide), (c1_amended "" 11).2.2 (by decide)⟩

set_option maxHeartbeats 1000000 in
/-- Claim C5 (confirmed): for every HE Operation element
(`element_id` 255, extension id 36) with sufficient payload, the
decoded `txop_dur_rts_thresh` equals the literal-precedence reading
`(block_byte_0 >>> 4) &&& (0x0F + (block_byte_1 &&& 0x3F))` of the
source's `(a >> 4) & 0x0F + (b & 0x3F)`; at `block_byte_0 = 0xF0`,
`block_byte_1 = 0x01` this decodes to `0`, while the other
parenthesization `((a >>> 4) &&& 0x0F) + (b &&& 0x3F)` gives `16`. -/
theorem c5_txop_precedence :
    (∀ (raw : String) (ln b0 b1 b2 bc m0 m1 t0 t1 t2 t3 t4 t5 t6 t7 t8 : Nat),
      (read_beacon_ie_core raw
        [255, ln, 36, b0, b1, b2, bc, m0, m1,
         t0, t1, t2, t3, t4, t5, t6, t7, t8]).bind
        (fun o => o.elements.lookup "txop_dur_rts_thresh") =
      some (.vInt (Int.ofNat ((b0 >>> 4) &&& (0x0F + (b1 &&& 0x3F))))))
    ∧ (read_beacon_ie_core ""
        [255, 15, 36, 0xF0, 0x01, 0, 0, 0, 0, 0, 0, 0, 0, 0, 0, 0, 0, 0]).bind
        (fun o => o.elements.lookup "txop_dur_rts_thresh") =
      some (.vInt 0)
    ∧ (((0xF0 >>> 4) &&& 0x0F) + (0x01 &&& 0x3F) : Nat) = 16
    ∧ (0 : Int) ≠ 16 := by
  refine ⟨fun raw ln b0 b1 b2 bc m0 m1 t0 t1 t2 t3 t4 t5 t6 t7 t8 => ?_,
    by decide, by decide, by decide⟩
  simp only [read_beacon_ie_core, pySlice, List.getElem?_cons_zero,
    List.getElem?_cons_succ, List.drop_succ_cons, List.drop_zero,
    List.take_succ_cons, List.take_zero]
  simp only [Option.bind_eq_bind]
  simp only [Option.some_bind]
  by_cases h1 : (b1 >>> 6) &&& 1 ≠ 0 <;>
    by_cases h2 : (b1 >>> 7) &&& 1 ≠ 0 <;>
      by_cases h3 : (b2 >>> 1) &&& 1 ≠ 0 <;>
        simp only [ne_eq, h1, h2, h3, not_false_eq_true, not_true_eq_false,
          ite_true, ite_false, if_true, if_false,
          Option.some_bind, List.getElem?_cons_succ, List.getElem?_cons_zero,
          List.cons_append, List.nil_append, List.append_assoc, List.lookup,
          String.reduceBEq, reduceIte]

end WifiScan
